import Mathlib

/-!
Verification of the booktracker statistics engine and book record model.

The definitions below are a shallow embedding of `src/schema.py` (the
validated book record model) and `src/stats.py` (the `BookStats` reading
statistics engine).  Python floats are modelled as rationals (`ℚ`),
Python's `round(x, 2)` as rounding to the nearest hundredth, optional
values (`None`, empty-string cells) as `Option`, and raising code paths
as `Option`/`Except` results.
-/

/-! ## Calendar dates

Python `datetime.date` values are proleptic Gregorian dates.  `rataDie`
is the day ordinal (`date.toordinal`), so that `(d2 - d1).days` in Python
is `rataDie d2 - rataDie d1` here. -/

/-- A calendar date: year, month, day. -/
structure Date where
  year : ℕ
  month : ℕ
  day : ℕ
deriving DecidableEq, Repr

/-- Gregorian leap-year rule, as implemented by Python `datetime`. -/
def isLeap (y : ℕ) : Bool :=
  y % 4 == 0 && (y % 100 != 0 || y % 400 == 0)

/-- Number of days in month `m` (1..12) of a year with leapness `leap`. -/
def monthLength (leap : Bool) (m : ℕ) : ℕ :=
  match m with
  | 1 => 31
  | 2 => if leap then 29 else 28
  | 3 => 31
  | 4 => 30
  | 5 => 31
  | 6 => 30
  | 7 => 31
  | 8 => 31
  | 9 => 30
  | 10 => 31
  | 11 => 30
  | 12 => 31
  | _ => 0

/-- Days in the months strictly before month `m` of a year with leapness `leap`. -/
def daysBeforeMonth (leap : Bool) : ℕ → ℕ
  | 0 => 0
  | m + 1 => daysBeforeMonth leap m + monthLength leap m

/-- One-based ordinal of the day within its year (Jan 1 ↦ 1). -/
def dayOfYear (d : Date) : ℕ :=
  daysBeforeMonth (isLeap d.year) d.month + d.day

/-- Number of leap years in `1..y`. -/
def leapsUpTo (y : ℕ) : ℕ :=
  y / 4 - y / 100 + y / 400

/-- Proleptic Gregorian day ordinal (0001-01-01 ↦ 1), Python `date.toordinal`. -/
def rataDie (d : Date) : ℤ :=
  365 * ((d.year : ℤ) - 1) + (leapsUpTo (d.year - 1) : ℤ) + (dayOfYear d : ℤ)

/-- The date is a real calendar date (what `datetime.date` can represent,
ignoring the upper bound 9999 which no claim depends on). -/
def Date.Valid (d : Date) : Prop :=
  1 ≤ d.year ∧ 1 ≤ d.month ∧ d.month ≤ 12 ∧ 1 ≤ d.day ∧
    d.day ≤ monthLength (isLeap d.year) d.month

instance (d : Date) : Decidable d.Valid := by
  unfold Date.Valid; exact inferInstance

/-- Chronological strict order on dates (how Python compares `datetime` values). -/
def dateLt (a b : Date) : Prop :=
  a.year < b.year ∨ (a.year = b.year ∧
    (a.month < b.month ∨ (a.month = b.month ∧ a.day < b.day)))

instance : DecidableRel dateLt := fun a b => by
  unfold dateLt; exact inferInstance

/-- Chronological order on dates, non-strict. -/
def dateLe (a b : Date) : Prop :=
  a.year < b.year ∨ (a.year = b.year ∧
    (a.month < b.month ∨ (a.month = b.month ∧ a.day ≤ b.day)))

instance : DecidableRel dateLe := fun a b => by
  unfold dateLe; exact inferInstance

/-! ## Book record model (`src/schema.py`) -/

/-- Reading status enumeration (`schema.Status`). -/
inductive Status where
  | TBR
  | IN_PROGRESS
  | COMPLETED
deriving DecidableEq, Repr

/-- Validation failures raised during `Book` construction.
`invalidDateFormat` is the `ValueError` of `Book.validate_date`;
`invalidDateOrder` is the `ValueError` of `Book.validate_date_completed`;
`isoParseFailure` is the `ValueError` that `datetime.fromisoformat` itself
raises inside `validate_date_completed` when a string that passed the
(prefix-anchored) format check is not a parseable date. -/
inductive BookErr where
  | invalidDateFormat
  | invalidDateOrder
  | isoParseFailure
deriving DecidableEq, Repr

/-- A validated book record (`schema.Book`).  In this variant of the schema
the date fields are stored as the original strings. -/
structure Book where
  id : Option ℤ
  title : String
  author : String
  status : Status
  date_started : String
  date_completed : String
deriving DecidableEq, Repr

/-- The regex test `re.match("[0-9]{4}-[0-9]{2}-[0-9]{2}", value)` from
`Book.validate_date`.  `re.match` anchors at the start of the string only,
so the trailing `_` in the first pattern is deliberate: any characters may
follow the ten matched ones. -/
def re_match_ymd : List Char → Bool
  | a :: b :: c :: d :: e :: f :: g :: h :: i :: j :: _ =>
    a.isDigit && b.isDigit && c.isDigit && d.isDigit && e == '-' &&
      f.isDigit && g.isDigit && h == '-' && i.isDigit && j.isDigit
  | _ => false

/-- Field validator `Book.validate_date`: empty input is accepted as `""`,
nonempty input must pass the (prefix-anchored) regex test. -/
def validate_date (value : String) : Except BookErr String :=
  if value ≠ "" then
    if re_match_ymd value.data then Except.ok value
    else Except.error BookErr.invalidDateFormat
  else Except.ok ""

/-- Numeric value of a decimal digit character. -/
def digitVal (c : Char) : ℕ := c.toNat - '0'.toNat

/-- Date-string parsing for the ten-character `YYYY-MM-DD` fragment.  This
models both `datetime.fromisoformat` (used in `validate_date_completed`)
and `datetime.strptime(value, "%Y-%m-%d")` (used in `days_to_read`) on
exactly-formatted strings: digits in the digit positions, dashes in the
dash positions, and a representable calendar date; anything else yields
`none` (a `ValueError` in Python).  Outside this fragment the two Python
parsers accept further shapes (e.g. trailing time parts for
`fromisoformat`, unpadded fields for `strptime`); no claim in this
development depends on those inputs. -/
def parse_ymd (s : String) : Option Date :=
  match s.data with
  | [a, b, c, d, e, f, g, h, i, j] =>
    if a.isDigit && b.isDigit && c.isDigit && d.isDigit && e == '-' &&
        f.isDigit && g.isDigit && h == '-' && i.isDigit && j.isDigit then
      if (⟨((digitVal a * 10 + digitVal b) * 10 + digitVal c) * 10 + digitVal d,
           digitVal f * 10 + digitVal g,
           digitVal i * 10 + digitVal j⟩ : Date).Valid then
        some ⟨((digitVal a * 10 + digitVal b) * 10 + digitVal c) * 10 + digitVal d,
              digitVal f * 10 + digitVal g,
              digitVal i * 10 + digitVal j⟩
      else none
    else none
  | _ => none

/-- Construction of a `Book` (pydantic model validation): the two
`validate_date` field validators run first (in field order), then the
`validate_date_completed` model validator, which parses both dates with
`fromisoformat` when both are nonempty and requires
`date_completed >= date_started`. -/
def mkBook (id : Option ℤ) (title author : String) (status : Status)
    (ds dc : String) : Except BookErr Book :=
  match validate_date ds, validate_date dc with
  | Except.ok ds', Except.ok dc' =>
    if ds' ≠ "" ∧ dc' ≠ "" then
      match parse_ymd ds', parse_ymd dc' with
      | some a, some b =>
        if dateLe a b then Except.ok ⟨id, title, author, status, ds', dc'⟩
        else Except.error BookErr.invalidDateOrder
      | _, _ => Except.error BookErr.isoParseFailure
    else Except.ok ⟨id, title, author, status, ds', dc'⟩
  | Except.error e, _ => Except.error e
  | _, Except.error e => Except.error e

/-- Computed field `Book.days_to_read`: inclusive day count when both dates
are present, `none` otherwise.  The parse failure arm (`strptime` raising)
is unreachable for validly constructed books whose date strings lie in the
`YYYY-MM-DD` fragment. -/
def days_to_read (b : Book) : Option ℤ :=
  if b.date_started ≠ "" ∧ b.date_completed ≠ "" then
    match parse_ymd b.date_started, parse_ymd b.date_completed with
    | some ds, some dc => some (rataDie dc - rataDie ds + 1)
    | _, _ => none
  else none

/-- Modelled from the spec: the date-format requirement as the claims state
it, "exactly four digits, dash, two digits, dash, two digits, and nothing
else" (a full-string match, unlike the code's prefix-anchored `re.match`). -/
def spec_full_ymd (s : String) : Bool :=
  match s.data with
  | [a, b, c, d, e, f, g, h, i, j] =>
    a.isDigit && b.isDigit && c.isDigit && d.isDigit && e == '-' &&
      f.isDigit && g.isDigit && h == '-' && i.isDigit && j.isDigit
  | _ => false

/-! ## Reading statistics engine (`src/stats.py`)

`BookStats` consumes this snapshot's `schema.Book` records, whose
`date_started`/`date_completed` fields are strings.  `_get_ymd`
nevertheless accesses `book.date_completed.year` and `.month`, and a
Python `str` has neither attribute: for every COMPLETED book with a
nonempty completion date, `_get_ymd` — and with it `BookStats.__init__`,
which calls it for every input book — raises `AttributeError`.  (The
snapshot is mid-refactor: its own tests call `.isoformat()` on these
fields and the database layer registers `date` converters, both expecting
date-valued fields, but no such value survives `Book`'s string-based
`re.match` validator.)  The engine's working representation, the list
`self.ymd` of `(year, month, days_to_read)` triples, is therefore only
ever constructed empty; the report methods below are embedded as functions
of an arbitrary working list, which is how they read in the source. -/

/-- Runtime errors of the engine that are not modelled by a dedicated
result value: `attributeError` is Python's `AttributeError` (here always
`str object has no attribute year`, from `_get_ymd`). -/
inductive PyErr where
  | attributeError
deriving DecidableEq, Repr

/-- One `(year, month, days_to_read)` working triple (`BookStats.ymd` element). -/
structure YMD where
  year : ℕ
  month : ℕ
  days_to_read : Option ℤ
deriving DecidableEq, Repr

/-- `BookStats._get_ymd` on a string-dated `Book`: when the book is
COMPLETED and `date_completed` is truthy (a nonempty string), the source
evaluates `book.date_completed.year`, which raises `AttributeError` on a
`str`; every other book yields the `(0, 0, 0)` placeholder. -/
def get_ymd (b : Book) : Except PyErr YMD :=
  if b.status = Status.COMPLETED ∧ b.date_completed ≠ "" then
    Except.error PyErr.attributeError
  else Except.ok ⟨0, 0, some 0⟩

/-- `BookStats.__init__`: the `self.ymd` comprehension, keeping the
triples whose year is truthy (nonzero).  The comprehension calls
`_get_ymd` on each book (twice — condition and element — with the same
result), so the first raising book aborts construction; when no book
raises, every triple is `(0, 0, 0)` and the filter leaves nothing. -/
def mk_ymd (books : List Book) : Except PyErr (List YMD) :=
  (books.mapM get_ymd).map (List.filter fun t => t.year != 0)

/-- Python `round(x, 2)` on the rational model: round to the nearest
hundredth. -/
def round2 (x : ℚ) : ℚ := ((round (x * 100) : ℤ) : ℚ) / 100

/-- Arithmetic mean (`statistics.mean`) of a list of integers, as a rational. -/
def meanQ (l : List ℤ) : ℚ := ((l.sum : ℚ)) / (l.length : ℚ)

/-- A `month_stats` row: `{year, month, count, per_week, avg_days_to_read}`.
`avg = none` models the empty-string cell (the gap rows built by
`monthly_stats` spell the last key `avg_dtr` instead of
`avg_days_to_read`; both are modelled by this same field). -/
structure MonthReport where
  year : ℕ
  month : ℕ
  count : ℕ
  per_week : ℚ
  avg : Option ℚ
deriving DecidableEq, Repr

/-- A `year_stats` row: `{year, count, per_month, per_week, avg_days_to_read}`.
For a year with no completions the source fills every field except `year`
with the empty string, modelled as `none`. -/
structure YearReport where
  year : ℕ
  count : Option ℕ
  per_month : Option ℚ
  per_week : Option ℚ
  avg : Option ℚ
deriving DecidableEq, Repr

/-- The local `books_read` of `BookStats.month_stats`: the working triples
whose completion `(year, month)` matches exactly. -/
def books_read_month (ymd : List YMD) (year month : ℕ) : List YMD :=
  ymd.filter fun t => t.year == year && t.month == month

/-- The `avg_days_to_read` cell of `BookStats.month_stats`:
`all(books_w_avg_days_to_read)` is Python truthiness over optional
integers — it fails on `None` and on `0` — and under it the `filterMap`
is the plain list of the present values. -/
def month_avg (ymd : List YMD) (year month : ℕ) : Option ℚ :=
  if books_read_month ymd year month ≠ [] then
    if (books_read_month ymd year month).all fun t => t.days_to_read.getD 0 != 0 then
      some (round2 (meanQ ((books_read_month ymd year month).filterMap
        fun t => t.days_to_read)))
    else none
  else none

/-- `BookStats.month_stats`: count, pace and average days-to-read for the
books completed in the given `(year, month)`. -/
def month_stats (ymd : List YMD) (year month : ℕ) : MonthReport :=
  { year := year, month := month,
    count := (books_read_month ymd year month).length,
    per_week := round2 (((books_read_month ymd year month).length : ℚ) /
      ((43363 : ℚ) / 10000)),
    avg := month_avg ymd year month }

/-- Lexicographic strict order on `(year, month)` pairs, as Python compares
tuples. -/
def pairLt (a b : ℕ × ℕ) : Prop :=
  a.1 < b.1 ∨ (a.1 = b.1 ∧ a.2 < b.2)

instance : DecidableRel pairLt := fun a b => by
  unfold pairLt; exact inferInstance

/-- Lexicographic order on `(year, month)` pairs, non-strict. -/
def pairLe (a b : ℕ × ℕ) : Prop :=
  a.1 < b.1 ∨ (a.1 = b.1 ∧ a.2 ≤ b.2)

instance : DecidableRel pairLe := fun a b => by
  unfold pairLe; exact inferInstance

/-- Python `min` over a nonempty collection of pairs: the first lexicographic
minimum.  The `[]` case is a junk value; `monthly_stats` only evaluates it
when the active-pair list is nonempty. -/
def minPair : List (ℕ × ℕ) → ℕ × ℕ
  | [] => (0, 0)
  | p :: ps => ps.foldl (fun acc q => if pairLt q acc then q else acc) p

/-- Python `max` over a nonempty collection of pairs (junk value on `[]`). -/
def maxPair : List (ℕ × ℕ) → ℕ × ℕ
  | [] => (0, 0)
  | p :: ps => ps.foldl (fun acc q => if pairLt acc q then q else acc) p

/-- Sort relation modelling `sorted(monthly, key=lambda x: (x["year"],
x["month"]), reverse=True)`: descending lexicographic `(year, month)` keys. -/
def mrGE (a b : MonthReport) : Prop := pairLe (b.year, b.month) (a.year, a.month)

instance : DecidableRel mrGE := fun a b => by
  unfold mrGE; exact inferInstance

instance : IsTotal MonthReport mrGE where
  total a b := by unfold mrGE pairLe; dsimp only; omega

instance : IsTrans MonthReport mrGE where
  trans a b c hab hbc := by unfold mrGE pairLe at *; dsimp only at *; omega

/-- `BookStats.monthly_stats`: one `month_stats` row per active `(year,
month)` pair, plus zero rows for the pairs of `product(years, range(1, 13))`
strictly between the least and greatest active pairs that are not active
themselves, sorted by `(year, month)` descending.  `years` only contains
years with at least one completion, so the product — and hence the gap
filling — never reaches a year all of whose months are empty.  Python
iterates the sets `yms` and `missing` in unspecified order; since every row
carries a distinct `(year, month)` key, the final sorted list does not
depend on that order, and deduplicated lists stand in for the sets.
`min(yms)`/`max(yms)` are evaluated only when the product is nonempty,
which forces `yms ≠ []`.

The local `yms` is `active_pairs`: the set of active `(year, month)`
pairs, as a deduplicated list. -/
def active_pairs (ymd : List YMD) : List (ℕ × ℕ) :=
  (ymd.map fun t => (t.year, t.month)).dedup

/-- The local `years` of `monthly_stats` (and of `yearly_stats`): the set of
years with at least one completion, as a deduplicated list. -/
def active_years (ymd : List YMD) : List ℕ :=
  (ymd.map fun t => t.year).dedup

/-- The local `missing` of `monthly_stats`: the pairs of
`product(years, range(1, 13))` strictly between the least and greatest
active pairs that are not active themselves. -/
def missing_pairs (ymd : List YMD) : List (ℕ × ℕ) :=
  (active_years ymd ×ˢ List.range' 1 12).filter fun i =>
    decide (pairLt (minPair (active_pairs ymd)) i) &&
      decide (pairLt i (maxPair (active_pairs ymd))) &&
      !((active_pairs ymd).contains i)

/-- The synthetic zero-activity row appended for a missing pair (the source
spells its last key `avg_dtr` where `month_stats` spells it
`avg_days_to_read`; both are modelled by the `avg` field). -/
def gap_row (i : ℕ × ℕ) : MonthReport :=
  { year := i.1, month := i.2, count := 0, per_week := 0, avg := none }

def monthly_stats (ymd : List YMD) : List MonthReport :=
  List.insertionSort mrGE
    ((active_pairs ymd).map (fun p => month_stats ymd p.1 p.2) ++
      (missing_pairs ymd).map gap_row)

/-- Elapsed days `(today - date(year, 1, 1)).days` used by `year_stats` for
the current year. -/
def daysElapsed (today : Date) (year : ℕ) : ℤ :=
  rataDie today - rataDie ⟨year, 1, 1⟩

/-- `BookStats.year_stats`: count, pace and average days-to-read for the
books completed in `year`.  The current year divides by elapsed days — a
`ZeroDivisionError` (modelled as `none`) when `today` is January 1 — and
multiplies by `364.25 / 12`; past and future years divide by the number of
distinct active months (never zero when any book matches, but the guard
mirrors where Python would raise).  The comprehension
`[book[2] for book in books_read if book[2]]` keeps truthy values only,
dropping both `None` and `0`. -/
def books_read_year (ymd : List YMD) (year : ℕ) : List YMD :=
  ymd.filter fun t => t.year == year

/-- The local `avgs` of `year_stats`: the comprehension
`[book[2] for book in books_read if book[2]]` keeps truthy values only,
dropping both `None` and `0`. -/
def year_avgs (ymd : List YMD) (year : ℕ) : List ℤ :=
  (books_read_year ymd year).filterMap fun t =>
    match t.days_to_read with
    | some d => if d ≠ 0 then some d else none
    | none => none

/-- The `avg_days_to_read` cell of `year_stats` for a year with at least one
completion (the enclosing `if count:` is always true there). -/
def year_avg (ymd : List YMD) (year : ℕ) : Option ℚ :=
  if year_avgs ymd year ≠ [] then some (round2 (meanQ (year_avgs ymd year)))
  else none

/-- The local `months` of `year_stats`:
`len({book[1] for book in self.ymd if book[0] == year})`, the number of
distinct completion months within the year. -/
def active_month_count (ymd : List YMD) (year : ℕ) : ℕ :=
  ((books_read_year ymd year).map fun t => t.month).dedup.length

def year_stats (today : Date) (ymd : List YMD) (year : ℕ) : Option YearReport :=
  if books_read_year ymd year ≠ [] then
    if year == today.year then
      if daysElapsed today year == 0 then none
      else
        some { year := year, count := some (books_read_year ymd year).length,
               per_month := some (round2
                 (((books_read_year ymd year).length : ℚ) /
                   (daysElapsed today year : ℚ) * ((36425 : ℚ) / 100 / 12))),
               per_week := some (round2
                 (((books_read_year ymd year).length : ℚ) /
                   (daysElapsed today year : ℚ) * 7)),
               avg := year_avg ymd year }
    else
      if active_month_count ymd year == 0 then none
      else
        some { year := year, count := some (books_read_year ymd year).length,
               per_month := some (round2
                 (((books_read_year ymd year).length : ℚ) /
                   (active_month_count ymd year : ℚ))),
               per_week := some (round2
                 (((books_read_year ymd year).length : ℚ) /
                   ((active_month_count ymd year : ℚ) * ((433 : ℚ) / 100)))),
               avg := year_avg ymd year }
  else
    some { year := year, count := none, per_month := none, per_week := none,
           avg := none }

/-- Sort relation modelling `sorted(..., key=lambda x: x["year"],
reverse=True)` on year rows. -/
def yrGE (a b : YearReport) : Prop := b.year ≤ a.year

instance : DecidableRel yrGE := fun a b => by
  unfold yrGE; exact inferInstance

instance : IsTotal YearReport yrGE where
  total a b := Nat.le_total b.year a.year

instance : IsTrans YearReport yrGE where
  trans _ _ _ hab hbc := Nat.le_trans hbc hab

/-- `BookStats.yearly_stats`: one `year_stats` row per active year, sorted
by year descending.  A `ZeroDivisionError` in any `year_stats` call
propagates. -/
def yearly_stats (today : Date) (ymd : List YMD) : Option (List YearReport) :=
  ((active_years ymd).mapM fun y => year_stats today ymd y).map
    (List.insertionSort yrGE)

/-- The `count` cell of a year row as `sorted(..., key=lambda x: x["count"])`
reads it.  `yearly_stats` only builds rows for years with at least one
completion, so the cell always holds an integer there; `getD 0` exposes it. -/
def yrCount (r : YearReport) : ℕ := r.count.getD 0

/-- Sort relation modelling `sorted(..., key=lambda x: x["count"],
reverse=True)` on year rows. -/
def yrCountGE (a b : YearReport) : Prop := yrCount b ≤ yrCount a

instance : DecidableRel yrCountGE := fun a b => by
  unfold yrCountGE; exact inferInstance

instance : IsTotal YearReport yrCountGE where
  total a b := Nat.le_total (yrCount b) (yrCount a)

instance : IsTrans YearReport yrCountGE where
  trans _ _ _ hab hbc := Nat.le_trans hbc hab

/-- `BookStats._get_max_year`: the first row of the yearly report re-sorted
by count descending, or `(0, 0)` when there is no data.  `any([all(s) for s
in self.yearly_stats()])` iterates each row dictionary's keys — all nonempty
strings, hence truthy — so it is exactly nonemptiness of the report. -/
def get_max_year (today : Date) (ymd : List YMD) : Option (ℕ × ℕ) :=
  (yearly_stats today ymd).bind fun ys =>
    if ys ≠ [] then
      match List.insertionSort yrCountGE ys with
      | [] => none
      | r :: _ => some (r.year, yrCount r)
    else some (0, 0)

/-- Sort relation for `sorted(..., key=lambda x: x["count"], reverse=True)`
on month rows. -/
def mrCountGE (a b : MonthReport) : Prop := b.count ≤ a.count

instance : DecidableRel mrCountGE := fun a b => by
  unfold mrCountGE; exact inferInstance

instance : IsTotal MonthReport mrCountGE where
  total a b := Nat.le_total b.count a.count

instance : IsTrans MonthReport mrCountGE where
  trans _ _ _ hab hbc := Nat.le_trans hbc hab

/-- `BookStats._get_max_year_month`: the first row of the monthly report
re-sorted by count descending, or `(0, 0, 0)` when there is no data. -/
def get_max_year_month (ymd : List YMD) : ℕ × ℕ × ℕ :=
  let ms := monthly_stats ymd
  if ms ≠ [] then
    match List.insertionSort mrCountGE ms with
    | [] => (0, 0, 0)
    | r :: _ => (r.year, r.month, r.count)
  else (0, 0, 0)

/-- First occurrences of each string, in input order (the key order of a
`collections.Counter`, which is insertion-ordered). -/
def uniqueFirsts : List String → List String
  | [] => []
  | a :: l => a :: uniqueFirsts (l.filter fun s => s ≠ a)
termination_by l => l.length
decreasing_by
  simp only [List.length_cons]
  exact Nat.lt_succ_of_le (List.length_filter_le _ l)

/-- Sort relation for `Counter.most_common`: descending counts, ties kept in
first-encounter order (the sort is stable). -/
def authGE (a b : String × ℕ) : Prop := b.2 ≤ a.2

instance : DecidableRel authGE := fun a b => by
  unfold authGE; exact inferInstance

instance : IsTotal (String × ℕ) authGE where
  total a b := Nat.le_total b.2 a.2

instance : IsTrans (String × ℕ) authGE where
  trans _ _ _ hab hbc := Nat.le_trans hbc hab

/-- `BookStats._get_top_authors`: top 20 nonempty author names by number of
occurrences across all input books. -/
def top_authors (books : List Book) : List (String × ℕ) :=
  let authors := (books.map fun b => b.author).filter fun a => a ≠ ""
  let pairs := (uniqueFirsts authors).map fun k => (k, authors.count k)
  (List.insertionSort authGE pairs).take 20

/-- Modelled from the spec: the current-year monthly pace formula as claim
C2 and the spec state it, `round((count / days_elapsed) * (365.25 / 12), 2)`
(the code divides the year into `364.25 / 12` instead). -/
def spec_per_month_current (count : ℕ) (days : ℤ) : ℚ :=
  round2 ((count : ℚ) / (days : ℚ) * ((36525 : ℚ) / 100 / 12))

/-! ## Concrete inputs used in the claim evaluations -/

/-- Three same-day reads completed in early 2026 (claim C2). -/
def c2books : List Book :=
  [⟨none, "B1", "A", Status.COMPLETED, "2026-01-05", "2026-01-05"⟩,
   ⟨none, "B2", "A", Status.COMPLETED, "2026-01-06", "2026-01-06"⟩,
   ⟨none, "B3", "A", Status.COMPLETED, "2026-01-07", "2026-01-07"⟩]

/-- The working list that `year_stats` would receive for `c2books` were the
engine able to build it (claim C2). -/
def c2ymd : List YMD := [⟨2026, 1, some 1⟩, ⟨2026, 1, some 1⟩, ⟨2026, 1, some 1⟩]

/-- A single completed book with a completion date (claim C3). -/
def c3fail : List Book :=
  [⟨none, "T", "A", Status.COMPLETED, "2024-01-01", "2024-01-05"⟩]

/-- Books none of which is COMPLETED with a nonempty completion date
(claim C3). -/
def c3ok : List Book :=
  [⟨none, "T", "A", Status.TBR, "", ""⟩,
   ⟨none, "U", "A", Status.IN_PROGRESS, "2024-01-01", ""⟩,
   ⟨none, "V", "A", Status.COMPLETED, "", ""⟩]

/-- Two validly constructible books completed in January 2024 with
durations 5 and 9 — the claim C6 example. -/
def c6crash : List Book :=
  [⟨none, "B1", "A", Status.COMPLETED, "2024-01-01", "2024-01-05"⟩,
   ⟨none, "B2", "A", Status.COMPLETED, "2024-01-12", "2024-01-20"⟩]

/-- The working list corresponding to `c6crash` (claim C6). -/
def c6ymd : List YMD := [⟨2024, 1, some 5⟩, ⟨2024, 1, some 9⟩]

/-- Six same-day reads completed across three distinct months of 2024 —
the claim C7 example. -/
def c7crash : List Book :=
  [⟨none, "B1", "A", Status.COMPLETED, "2024-01-03", "2024-01-03"⟩,
   ⟨none, "B2", "A", Status.COMPLETED, "2024-01-09", "2024-01-09"⟩,
   ⟨none, "B3", "A", Status.COMPLETED, "2024-02-03", "2024-02-03"⟩,
   ⟨none, "B4", "A", Status.COMPLETED, "2024-02-09", "2024-02-09"⟩,
   ⟨none, "B5", "A", Status.COMPLETED, "2024-03-03", "2024-03-03"⟩,
   ⟨none, "B6", "A", Status.COMPLETED, "2024-03-09", "2024-03-09"⟩]

/-- The working list corresponding to `c7crash` (claim C7). -/
def c7ymd : List YMD :=
  [⟨2024, 1, some 1⟩, ⟨2024, 1, some 1⟩, ⟨2024, 2, some 1⟩,
   ⟨2024, 2, some 1⟩, ⟨2024, 3, some 1⟩, ⟨2024, 3, some 1⟩]

/-- A single completed book (claim C9). -/
def c9fail : List Book :=
  [⟨none, "B", "A", Status.COMPLETED, "2025-03-01", "2025-03-05"⟩]

/-- A working list with two 2025 completions and one 2024 completion
(claim C9). -/
def c9ymd : List YMD := [⟨2025, 3, some 1⟩, ⟨2025, 4, some 1⟩, ⟨2024, 6, some 1⟩]

/-- Two completed books, the second with no start date (claim C10). -/
def c10crash : List Book :=
  [⟨none, "B1", "A", Status.COMPLETED, "2024-01-01", "2024-01-05"⟩,
   ⟨none, "B2", "A", Status.COMPLETED, "", "2024-01-20"⟩]

/-- The working list corresponding to `c10crash`: one present and one
absent duration in the same month (claim C10). -/
def c10ymd : List YMD := [⟨2024, 1, some 5⟩, ⟨2024, 1, none⟩]

/-- Two validly constructible books completed in May 2020 and May 2022
(claim C1). -/
def c1crash : List Book :=
  [⟨none, "B1", "A", Status.COMPLETED, "2020-05-01", "2020-05-01"⟩,
   ⟨none, "B2", "A", Status.COMPLETED, "2022-05-01", "2022-05-01"⟩]

/-- The working list corresponding to `c1crash`: active pairs two years
apart with the whole of 2021 inactive (claim C1). -/
def c1gap : List YMD := [⟨2020, 5, some 3⟩, ⟨2022, 5, some 4⟩]

/-- A working list with a one-month gap inside a single active year
(claim C1). -/
def c1ymd : List YMD := [⟨2024, 3, some 3⟩, ⟨2024, 1, some 4⟩]

/-! ## Facts about book construction (`schema.Book`) -/

deriving instance DecidableEq for Except

/-- A successful `validate_date` returns its input unchanged. -/
theorem validate_date_ok {s v : String} (h : validate_date s = Except.ok v) :
    v = s := by
  unfold validate_date at h
  split at h
  · split at h
    · exact (Except.ok.inj h).symm
    · exact absurd h (by simp)
  · next hns =>
    rw [not_not.mp hns]
    exact (Except.ok.inj h).symm

/-- A string that parses as a date passes the (prefix-anchored) regex test. -/
theorem parse_ymd_re {s : String} {d : Date} (h : parse_ymd s = some d) :
    re_match_ymd s.data = true := by
  unfold parse_ymd at h
  split at h
  · next a b c d' e f g h' i j heq =>
    rw [heq]
    split at h
    · next hcond =>
      unfold re_match_ymd
      exact hcond
    · exact Option.noConfusion h
  · exact Option.noConfusion h

/-- A string that parses as a date parses to a valid calendar date. -/
theorem parse_ymd_valid {s : String} {d : Date} (h : parse_ymd s = some d) :
    d.Valid := by
  unfold parse_ymd at h
  split at h
  · split at h
    · split at h
      · next hval => rw [← Option.some.inj h]; exact hval
      · exact Option.noConfusion h
    · exact Option.noConfusion h
  · exact Option.noConfusion h

/-- The empty string does not parse as a date. -/
theorem parse_ymd_ne_empty {s : String} {d : Date} (h : parse_ymd s = some d) :
    s ≠ "" := by
  intro hs
  rw [hs] at h
  exact Option.noConfusion h

/-- A successfully constructed book holds exactly the validated input fields. -/
theorem mkBook_ok {id : Option ℤ} {title author : String} {status : Status}
    {ds dc : String} {b : Book}
    (h : mkBook id title author status ds dc = Except.ok b) :
    b = ⟨id, title, author, status, ds, dc⟩ := by
  unfold mkBook at h
  split at h
  · next ds' dc' heq1 heq2 =>
    obtain rfl : ds' = ds := validate_date_ok heq1
    obtain rfl : dc' = dc := validate_date_ok heq2
    split at h
    · split at h
      · split at h
        · exact (Except.ok.inj h).symm
        · exact absurd h (by simp)
      · exact absurd h (by simp)
    · exact (Except.ok.inj h).symm
  · exact absurd h (by simp)
  · exact absurd h (by simp)

/-- If construction succeeds with both dates supplied, both date strings
parse and they are in chronological order. -/
theorem mkBook_ok_parses {id : Option ℤ} {title author : String}
    {status : Status} {ds dc : String} {b : Book}
    (h : mkBook id title author status ds dc = Except.ok b)
    (hds : ds ≠ "") (hdc : dc ≠ "") :
    ∃ d1 d2, parse_ymd ds = some d1 ∧ parse_ymd dc = some d2 ∧ dateLe d1 d2 := by
  unfold mkBook at h
  split at h
  · next ds' dc' heq1 heq2 =>
    obtain rfl : ds' = ds := validate_date_ok heq1
    obtain rfl : dc' = dc := validate_date_ok heq2
    split at h
    · split at h
      · next d1 d2 hp1 hp2 =>
        split at h
        · next hle => exact ⟨d1, d2, hp1, hp2, hle⟩
        · exact absurd h (by simp)
      · exact absurd h (by simp)
    · next hcon => exact absurd ⟨hds, hdc⟩ hcon
  · exact absurd h (by simp)
  · exact absurd h (by simp)

/-- A date string that is empty or parses passes `validate_date` unchanged. -/
theorem validate_date_pass {s : String}
    (h : s = "" ∨ (parse_ymd s).isSome) : validate_date s = Except.ok s := by
  rcases h with h | h
  · subst h; rfl
  · obtain ⟨d, hd⟩ := Option.isSome_iff_exists.mp h
    unfold validate_date
    rw [if_pos (parse_ymd_ne_empty hd), if_pos (parse_ymd_re hd)]

/-- Chronological totality: two dates compare one way or the other. -/
theorem dateLe_or_dateLt (a b : Date) : dateLe a b ∨ dateLt b a := by
  unfold dateLe dateLt; omega

/-- `dateLe` and the reversed `dateLt` are incompatible. -/
theorem not_dateLt_of_dateLe {a b : Date} (h : dateLe a b) : ¬dateLt b a := by
  unfold dateLe at h; unfold dateLt; omega

/-- C4: for every validly constructed book record, if both dates are present
then `days_to_read` is the inclusive day difference `(completed - started) +
1` — in particular `1` for a same-day read — and if either date is absent
then `days_to_read` is absent. -/
theorem c4_days_to_read_inclusive (id : Option ℤ) (title author : String)
    (status : Status) (ds dc : String) (b : Book)
    (hok : mkBook id title author status ds dc = Except.ok b) :
    (ds ≠ "" → dc ≠ "" → ∃ d1 d2, parse_ymd ds = some d1 ∧
      parse_ymd dc = some d2 ∧
      days_to_read b = some (rataDie d2 - rataDie d1 + 1)) ∧
    ((ds = "" ∨ dc = "") → days_to_read b = none) ∧
    (ds ≠ "" → ds = dc → days_to_read b = some 1) := by
  obtain rfl : b = ⟨id, title, author, status, ds, dc⟩ := mkBook_ok hok
  have main : ds ≠ "" → dc ≠ "" → ∃ d1 d2, parse_ymd ds = some d1 ∧
      parse_ymd dc = some d2 ∧
      days_to_read ⟨id, title, author, status, ds, dc⟩ =
        some (rataDie d2 - rataDie d1 + 1) := by
    intro hds hdc
    obtain ⟨d1, d2, hp1, hp2, _⟩ := mkBook_ok_parses hok hds hdc
    refine ⟨d1, d2, hp1, hp2, ?_⟩
    unfold days_to_read
    rw [if_pos ⟨hds, hdc⟩]
    simp only
    rw [hp1, hp2]
  refine ⟨main, ?_, ?_⟩
  · intro hor
    unfold days_to_read
    rw [if_neg]
    rintro ⟨hds, hdc⟩
    rcases hor with h | h
    · exact hds h
    · exact hdc h
  · intro hds heq
    have hdc : dc ≠ "" := by rw [← heq]; exact hds
    obtain ⟨d1, d2, hp1, hp2, hdays⟩ := main hds hdc
    rw [heq, hp2] at hp1
    obtain rfl : d1 = d2 := (Option.some.inj hp1).symm
    rw [hdays]
    norm_num

/-- Witness for C4 at a concrete same-day read: construction succeeds and
`days_to_read` is `1`. -/
theorem c4_witness :
    mkBook none "T" "A" Status.COMPLETED "2024-03-15" "2024-03-15" =
      Except.ok ⟨none, "T", "A", Status.COMPLETED, "2024-03-15", "2024-03-15"⟩ ∧
    days_to_read ⟨none, "T", "A", Status.COMPLETED, "2024-03-15", "2024-03-15"⟩ =
      some 1 := by
  have hok : mkBook none "T" "A" Status.COMPLETED "2024-03-15" "2024-03-15" =
      Except.ok ⟨none, "T", "A", Status.COMPLETED, "2024-03-15", "2024-03-15"⟩ := by
    decide
  exact ⟨hok,
    (c4_days_to_read_inclusive none "T" "A" Status.COMPLETED "2024-03-15"
      "2024-03-15" _ hok).2.2 (by decide) rfl⟩

/-- C5 (code bug): the date-format check uses a prefix-anchored `re.match`,
so the string `"2024-01-0199"` — which is not exactly `YYYY-MM-DD` — passes
`validate_date` and book construction succeeds, while the claim requires a
format failure; truly unmatched prefixes and the empty string behave as
claimed. -/
theorem c5_format_validation_prefix_bug :
    validate_date "2024-01-0199" = Except.ok "2024-01-0199" ∧
    spec_full_ymd "2024-01-0199" = false ∧
    mkBook none "T" "A" Status.TBR "2024-01-0199" "" =
      Except.ok ⟨none, "T", "A", Status.TBR, "2024-01-0199", ""⟩ ∧
    validate_date "2024/01/01" = Except.error BookErr.invalidDateFormat ∧
    validate_date "not-a-date" = Except.error BookErr.invalidDateFormat ∧
    validate_date "" = Except.ok "" := by
  decide

/-- C8: over empty-or-well-formed date strings, construction fails with the
date-order error exactly when both dates are present and the completion
date strictly precedes the start date; in every other case — equal dates,
or one or both dates absent — construction succeeds. -/
theorem c8_date_order_iff (id : Option ℤ) (title author : String)
    (status : Status) (ds dc : String)
    (h1 : ds = "" ∨ (parse_ymd ds).isSome)
    (h2 : dc = "" ∨ (parse_ymd dc).isSome) :
    (mkBook id title author status ds dc =
        Except.error BookErr.invalidDateOrder ↔
      ∃ d1 d2, parse_ymd ds = some d1 ∧ parse_ymd dc = some d2 ∧
        dateLt d2 d1) ∧
    ((∀ d1 d2, parse_ymd ds = some d1 → parse_ymd dc = some d2 →
        dateLe d1 d2) →
      mkBook id title author status ds dc =
        Except.ok ⟨id, title, author, status, ds, dc⟩) := by
  unfold mkBook
  rw [validate_date_pass h1, validate_date_pass h2]
  simp only
  rcases h1 with rfl | h1
  · rw [if_neg (by simp)]
    constructor
    · constructor
      · intro h; exact absurd h (by simp)
      · rintro ⟨d1, d2, hp1, hp2, _⟩
        exact absurd hp1 (by simp [parse_ymd])
    · intro _; rfl
  · obtain ⟨d1, hd1⟩ := Option.isSome_iff_exists.mp h1
    rcases h2 with rfl | h2
    · rw [if_neg (by simp)]
      constructor
      · constructor
        · intro h; exact absurd h (by simp)
        · rintro ⟨e1, e2, hp1, hp2, _⟩
          exact absurd hp2 (by simp [parse_ymd])
      · intro _; rfl
    · obtain ⟨d2, hd2⟩ := Option.isSome_iff_exists.mp h2
      rw [if_pos ⟨parse_ymd_ne_empty hd1, parse_ymd_ne_empty hd2⟩, hd1, hd2]
      simp only
      by_cases hle : dateLe d1 d2
      · rw [if_pos hle]
        constructor
        · constructor
          · intro h; exact absurd h (by simp)
          · rintro ⟨e1, e2, hp1, hp2, hlt⟩
            obtain rfl := Option.some.inj hp1
            obtain rfl := Option.some.inj hp2
            exact absurd hlt (not_dateLt_of_dateLe hle)
        · intro _; rfl
      · rw [if_neg hle]
        constructor
        · constructor
          · intro _
            exact ⟨d1, d2, rfl, rfl,
              (dateLe_or_dateLt d1 d2).resolve_left hle⟩
          · intro _; rfl
        · intro hall
          exact absurd (hall d1 d2 rfl rfl) hle

/-- Witness for C8: completion before start is rejected with the date-order
error; a same-day pair is accepted. -/
theorem c8_witness :
    mkBook none "T" "A" Status.TBR "2024-05-10" "2024-05-01" =
      Except.error BookErr.invalidDateOrder ∧
    mkBook none "T" "A" Status.TBR "2024-05-10" "2024-05-10" =
      Except.ok ⟨none, "T", "A", Status.TBR, "2024-05-10", "2024-05-10"⟩ := by
  constructor
  · exact (c8_date_order_iff none "T" "A" Status.TBR "2024-05-10" "2024-05-01"
      (Or.inr (by decide)) (Or.inr (by decide))).1.mpr
      ⟨⟨2024, 5, 10⟩, ⟨2024, 5, 1⟩, by decide, by decide, by decide⟩
  · refine (c8_date_order_iff none "T" "A" Status.TBR "2024-05-10" "2024-05-10"
      (Or.inr (by decide)) (Or.inr (by decide))).2 ?_
    intro d1 d2 hp1 hp2
    have e1 : parse_ymd "2024-05-10" = some ⟨2024, 5, 10⟩ := by decide
    rw [e1] at hp1 hp2
    obtain rfl := Option.some.inj hp1
    obtain rfl := Option.some.inj hp2
    decide

/-! ## What engine construction actually produces -/

/-- Mapping `_get_ymd` over the input raises as soon as one book is
COMPLETED with a nonempty completion date; otherwise every book yields the
placeholder triple. -/
theorem mapM_get_ymd_eq (books : List Book) :
    books.mapM get_ymd =
      if ∃ b ∈ books, b.status = Status.COMPLETED ∧ b.date_completed ≠ "" then
        Except.error PyErr.attributeError
      else Except.ok (books.map fun _ => (⟨0, 0, some 0⟩ : YMD)) := by
  induction books with
  | nil => rfl
  | cons b bs ih =>
    by_cases hc : b.status = Status.COMPLETED ∧ b.date_completed ≠ ""
    · have hgb : get_ymd b = Except.error PyErr.attributeError := by
        unfold get_ymd
        rw [if_pos hc]
      simp only [List.mapM_cons, hgb]
      rw [if_pos ⟨b, List.mem_cons_self b bs, hc⟩]
      rfl
    · have hgb : get_ymd b = Except.ok ⟨0, 0, some 0⟩ := by
        unfold get_ymd
        rw [if_neg hc]
      simp only [List.mapM_cons, hgb, ih]
      by_cases hex : ∃ b2 ∈ bs, b2.status = Status.COMPLETED ∧ b2.date_completed ≠ ""
      · rw [if_pos hex]
        rw [if_pos ?_]
        · rfl
        · obtain ⟨b2, hb2, hc2⟩ := hex
          exact ⟨b2, List.mem_cons_of_mem b hb2, hc2⟩
      · rw [if_neg hex]
        rw [if_neg ?_]
        · rfl
        · rintro ⟨b2, hb2, hc2⟩
          rcases List.mem_cons.mp hb2 with he | hmem
          · exact hc (he ▸ hc2)
          · exact hex ⟨b2, hmem, hc2⟩

/-- Closed form of engine construction on this snapshot: `AttributeError`
as soon as the input holds a COMPLETED book with a nonempty completion
date, and otherwise an empty working list (the surviving placeholders all
fail the truthiness filter). -/
theorem mk_ymd_eq (books : List Book) :
    mk_ymd books =
      if ∃ b ∈ books, b.status = Status.COMPLETED ∧ b.date_completed ≠ "" then
        Except.error PyErr.attributeError
      else Except.ok [] := by
  unfold mk_ymd
  rw [mapM_get_ymd_eq]
  by_cases hex : ∃ b ∈ books, b.status = Status.COMPLETED ∧ b.date_completed ≠ ""
  · rw [if_pos hex, if_pos hex]
    rfl
  · rw [if_neg hex, if_neg hex]
    show Except.ok ((books.map fun _ => (⟨0, 0, some 0⟩ : YMD)).filter
      fun t => t.year != 0) = Except.ok []
    have hnil : ((books.map fun _ => (⟨0, 0, some 0⟩ : YMD)).filter
        fun t => t.year != 0) = [] := by
      rw [List.filter_eq_nil_iff]
      intro t ht
      obtain ⟨b, hb, he⟩ := List.mem_map.mp ht
      rw [show t = (⟨0, 0, some 0⟩ : YMD) from he.symm]
      decide
    rw [hnil]

/-- C6 (code bug): the per-month figures the claim describes are the
`month_stats` method body, but on this snapshot no data ever reaches it:
at the claim's own example — two validly constructed books completed in
January 2024 with durations 5 and 9 — engine construction raises
`AttributeError`.  The method body itself matches the claim over an
arbitrary working list: exact count, pace `round(count / 4.3363, 2)`
(which is `0` when the count is `0`), the mean days-to-read rounded to two
decimals when every matching triple carries a duration, and an empty (not
`0`) average when nothing matches; on the example working list it yields
count 2, pace 0.46 and average 7.0. -/
theorem c6_month_stats :
    (mkBook none "B1" "A" Status.COMPLETED "2024-01-01" "2024-01-05" =
      Except.ok ⟨none, "B1", "A", Status.COMPLETED, "2024-01-01", "2024-01-05"⟩ ∧
     mkBook none "B2" "A" Status.COMPLETED "2024-01-12" "2024-01-20" =
      Except.ok ⟨none, "B2", "A", Status.COMPLETED, "2024-01-12", "2024-01-20"⟩ ∧
     days_to_read ⟨none, "B1", "A", Status.COMPLETED, "2024-01-01", "2024-01-05"⟩ =
       some 5 ∧
     days_to_read ⟨none, "B2", "A", Status.COMPLETED, "2024-01-12", "2024-01-20"⟩ =
       some 9 ∧
     mk_ymd c6crash = Except.error PyErr.attributeError) ∧
    (∀ (ymd : List YMD) (y m : ℕ),
      (month_stats ymd y m).count =
        ymd.countP (fun t => t.year == y && t.month == m) ∧
      (month_stats ymd y m).per_week =
        round2 ((ymd.countP (fun t => t.year == y && t.month == m) : ℚ) /
          ((43363 : ℚ) / 10000)) ∧
      (books_read_month ymd y m = [] → (month_stats ymd y m).avg = none) ∧
      (books_read_month ymd y m ≠ [] →
        (∀ t ∈ books_read_month ymd y m,
          ∃ v : ℤ, t.days_to_read = some v ∧ v ≠ 0) →
        (month_stats ymd y m).avg = some (round2 (meanQ
          ((books_read_month ymd y m).filterMap fun t => t.days_to_read))))) ∧
    month_stats c6ymd 2024 1 = ⟨2024, 1, 2, (46 : ℚ) / 100, some 7⟩ := by
  refine ⟨by decide, ?_, ?_⟩
  · intro ymd y m
    refine ⟨?_, ?_, ?_, ?_⟩
    · show (books_read_month ymd y m).length = _
      unfold books_read_month
      rw [List.countP_eq_length_filter]
    · show round2 (((books_read_month ymd y m).length : ℚ) / _) = _
      unfold books_read_month
      rw [List.countP_eq_length_filter]
    · intro he
      show month_avg ymd y m = none
      unfold month_avg
      rw [he]
      simp
    · intro hne hall
      show month_avg ymd y m = _
      unfold month_avg
      rw [if_pos hne, if_pos ?hall]
      case hall =>
        rw [List.all_eq_true]
        intro t ht
        obtain ⟨v, hv1, hnz⟩ := hall t ht
        simp only [hv1]
        simpa using hnz
  · have hbr : books_read_month c6ymd 2024 1 = c6ymd := by decide
    unfold month_stats month_avg
    rw [hbr]
    rw [if_pos (show c6ymd ≠ [] from by decide), if_pos (by decide)]
    rw [show c6ymd.filterMap (fun t => t.days_to_read) = [5, 9] from by decide]
    rw [show c6ymd.length = 2 from by decide]
    simp only [MonthReport.mk.injEq, Option.some.injEq]
    norm_num [round2, round_eq, meanQ]

/-- Witness for C6 at the example working list: count 2 and mean 7 via the
method-body characterization. -/
theorem c6_witness :
    (month_stats c6ymd 2024 1).count = 2 ∧
    (month_stats c6ymd 2024 1).avg = some (round2 (meanQ [5, 9])) := by
  obtain ⟨h1, h2, h3, h4⟩ := c6_month_stats.2.1 c6ymd 2024 1
  have hbr : books_read_month c6ymd 2024 1 = c6ymd := by decide
  constructor
  · rw [h1]
    decide
  · rw [hbr] at h4
    refine (h4 (by decide) ?_).trans ?_
    · intro t ht
      rw [show c6ymd = [⟨2024, 1, some 5⟩, ⟨2024, 1, some 9⟩] from rfl] at ht
      rcases List.mem_cons.mp ht with he | ht1
      · exact ⟨5, by rw [he], by decide⟩
      · rcases List.mem_cons.mp ht1 with he | ht2
        · exact ⟨9, by rw [he], by decide⟩
        · exact absurd ht2 (List.not_mem_nil t)
    · rw [show c6ymd.filterMap (fun t => t.days_to_read) = [5, 9] from by decide]

/-- C10 (code bug): the truthiness gate the claim describes is real in
the `month_stats` body — one matching triple with an absent duration
empties the average even when others carry durations and the count stays
positive — but the program cannot reach it: the COMPLETED books the claim
needs make engine construction raise `AttributeError` first. -/
theorem c10_absent_duration_empties_avg :
    (mkBook none "B2" "A" Status.COMPLETED "" "2024-01-20" =
      Except.ok ⟨none, "B2", "A", Status.COMPLETED, "", "2024-01-20"⟩ ∧
     days_to_read ⟨none, "B2", "A", Status.COMPLETED, "", "2024-01-20"⟩ =
       none ∧
     mk_ymd c10crash = Except.error PyErr.attributeError) ∧
    (∀ (ymd : List YMD) (y m : ℕ) (t0 : YMD), t0 ∈ ymd → t0.year = y →
      t0.month = m → t0.days_to_read = none →
      (month_stats ymd y m).avg = none) := by
  refine ⟨by decide, ?_⟩
  intro ymd y m t0 ht hy hm hd
  show month_avg ymd y m = none
  unfold month_avg
  have hmem : t0 ∈ books_read_month ymd y m := by
    unfold books_read_month
    rw [List.mem_filter]
    exact ⟨ht, by simp [hy, hm]⟩
  rw [if_pos (by intro h0; rw [h0] at hmem; exact List.not_mem_nil _ hmem)]
  rw [if_neg]
  intro hall
  have hx := List.all_eq_true.mp hall t0 hmem
  rw [hd] at hx
  simp at hx

/-- Witness for C10 at the example working list: one present and one
absent duration in 2024-01 give an empty average with count 2. -/
theorem c10_witness :
    (month_stats c10ymd 2024 1).avg = none ∧
    (month_stats c10ymd 2024 1).count = 2 :=
  ⟨c10_absent_duration_empties_avg.2 c10ymd 2024 1 ⟨2024, 1, none⟩
    (by decide) rfl rfl rfl, by decide⟩

/-- C7 (code bug): the past-year formulas the claim gives are the
`year_stats` method body, but only its no-completion branch is reachable:
at the claim's example — six validly constructed books completed across
three months of 2024 — engine construction raises `AttributeError`, and
every input that does construct leaves the working list empty, where
`year_stats` reports every derived cell empty and performs no division.
Over an arbitrary working list the body matches the claim:
`per_month = round(count / months, 2)` and
`per_week = round(count / (months * 4.33), 2)` with `months` at least one
distinct completion month, and all-empty cells when the year has no
completions; the example working list gives `per_month = 2.0`. -/
theorem c7_year_stats_past :
    (mkBook none "B1" "A" Status.COMPLETED "2024-01-03" "2024-01-03" =
      Except.ok ⟨none, "B1", "A", Status.COMPLETED, "2024-01-03", "2024-01-03"⟩ ∧
     mk_ymd c7crash = Except.error PyErr.attributeError) ∧
    (∀ (today : Date) (y : ℕ),
      year_stats today [] y = some ⟨y, none, none, none, none⟩) ∧
    (∀ (today : Date) (ymd : List YMD) (y : ℕ), y < today.year →
      (books_read_year ymd y = [] →
        year_stats today ymd y = some ⟨y, none, none, none, none⟩) ∧
      (books_read_year ymd y ≠ [] →
        1 ≤ active_month_count ymd y ∧
        year_stats today ymd y =
          some ⟨y, some (books_read_year ymd y).length,
            some (round2 (((books_read_year ymd y).length : ℚ) /
              (active_month_count ymd y : ℚ))),
            some (round2 (((books_read_year ymd y).length : ℚ) /
              ((active_month_count ymd y : ℚ) * ((433 : ℚ) / 100)))),
            year_avg ymd y⟩)) ∧
    year_stats ⟨2026, 10, 12⟩ c7ymd 2024 =
      some ⟨2024, some 6, some 2, some ((46 : ℚ) / 100), some 1⟩ := by
  refine ⟨by decide, ?_, ?_, ?_⟩
  · intro today y
    unfold year_stats
    rw [if_neg (fun hC => hC rfl)]
  · intro today ymd y hpast
    have hyne : ¬((y == today.year) = true) := by
      simp only [beq_iff_eq]
      omega
    constructor
    · intro he
      unfold year_stats
      rw [if_neg (fun hC => hC he)]
    · intro hne
      have hm1 : 1 ≤ active_month_count ymd y := by
        unfold active_month_count
        have hmap : (books_read_year ymd y).map (fun t => t.month) ≠ [] := by
          simpa using hne
        have hd : ((books_read_year ymd y).map fun t => t.month).dedup ≠ [] := by
          simpa [List.dedup_eq_nil] using hmap
        have hpos := List.length_pos.mpr hd
        omega
      refine ⟨hm1, ?_⟩
      unfold year_stats
      rw [if_pos hne, if_neg hyne, if_neg (by simp only [beq_iff_eq]; omega)]
  · have hbr : books_read_year c7ymd 2024 = c7ymd := by decide
    have havgs : year_avgs c7ymd 2024 = [1, 1, 1, 1, 1, 1] := by decide
    unfold year_stats
    rw [if_pos (show books_read_year c7ymd 2024 ≠ [] from by rw [hbr]; decide)]
    rw [if_neg (show ¬(((2024 : ℕ) == (⟨2026, 10, 12⟩ : Date).year) = true)
      from by decide)]
    rw [if_neg (show ¬((active_month_count c7ymd 2024 == 0) = true) from by
      decide)]
    unfold year_avg
    rw [havgs, if_pos (by simp), hbr]
    rw [show c7ymd.length = 6 from by decide,
      show active_month_count c7ymd 2024 = 3 from by decide]
    simp only [Option.some.injEq, YearReport.mk.injEq]
    norm_num [round2, round_eq, meanQ]

/-- Witness for C7: the degenerate branch at an empty working list and the
past-year formulas at the example working list. -/
theorem c7_witness :
    year_stats ⟨2026, 10, 12⟩ [] 1999 = some ⟨1999, none, none, none, none⟩ ∧
    (1 ≤ active_month_count c7ymd 2024 ∧
      year_stats ⟨2026, 10, 12⟩ c7ymd 2024 =
        some ⟨2024, some (books_read_year c7ymd 2024).length,
          some (round2 (((books_read_year c7ymd 2024).length : ℚ) /
            (active_month_count c7ymd 2024 : ℚ))),
          some (round2 (((books_read_year c7ymd 2024).length : ℚ) /
            ((active_month_count c7ymd 2024 : ℚ) * ((433 : ℚ) / 100)))),
          year_avg c7ymd 2024⟩) :=
  ⟨c7_year_stats_past.2.1 ⟨2026, 10, 12⟩ 1999,
   (c7_year_stats_past.2.2.1 ⟨2026, 10, 12⟩ c7ymd 2024 (by decide)).2
     (by decide)⟩

/-- C2 (code bug): two defects stack.  At the claim's input — three books
completed in early 2026 — engine construction already raises
`AttributeError`, so `year_stats` never runs; and the current-year branch
it would run multiplies the daily pace by `364.25 / 12` where the claim
(and the sibling constant `4.3363 = 365.25/7/12` in `month_stats`) uses
`365.25 / 12`.  On the working list the engine aims to build, the code
body gives `per_month = 9.11` while the claimed formula gives `9.13`; the
`per_week` cell `round((count / days) * 7, 2) = 2.1` does follow the
claim. -/
theorem c2_current_year_constant_bug :
    (mkBook none "B1" "A" Status.COMPLETED "2026-01-05" "2026-01-05" =
      Except.ok ⟨none, "B1", "A", Status.COMPLETED, "2026-01-05", "2026-01-05"⟩ ∧
     mk_ymd c2books = Except.error PyErr.attributeError) ∧
    year_stats ⟨2026, 1, 11⟩ c2ymd 2026 =
      some ⟨2026, some 3, some ((911 : ℚ) / 100), some ((21 : ℚ) / 10),
        some 1⟩ ∧
    spec_per_month_current 3 (daysElapsed ⟨2026, 1, 11⟩ 2026) =
      (913 : ℚ) / 100 ∧
    ((911 : ℚ) / 100) ≠ ((913 : ℚ) / 100) := by
  have hdays : daysElapsed ⟨2026, 1, 11⟩ 2026 = 10 := by decide
  refine ⟨by decide, ?_, ?_, by norm_num⟩
  · have hbr : books_read_year c2ymd 2026 = c2ymd := by decide
    have havgs : year_avgs c2ymd 2026 = [1, 1, 1] := by decide
    unfold year_stats
    rw [if_pos (show books_read_year c2ymd 2026 ≠ [] from by rw [hbr]; decide)]
    rw [if_pos (show ((2026 : ℕ) == (⟨2026, 1, 11⟩ : Date).year) = true from
      rfl)]
    rw [hdays]
    rw [if_neg (show ¬(((10 : ℤ) == 0) = true) from by decide)]
    unfold year_avg
    rw [havgs, if_pos (by simp), hbr]
    rw [show c2ymd.length = 3 from by decide]
    simp only [Option.some.injEq, YearReport.mk.injEq]
    norm_num [round2, round_eq, meanQ]
  · rw [hdays]
    unfold spec_per_month_current
    norm_num [round2, round_eq]

/-! ## Division reachability in the report operations -/

/-- Months from March onward start at least 31 days into the year. -/
theorem daysBeforeMonth_ge (leap : Bool) :
    ∀ m, 2 ≤ m → 31 ≤ daysBeforeMonth leap m := by
  intro m hm
  induction m with
  | zero => omega
  | succ k ih =>
    rcases Nat.lt_or_ge k 2 with hk | hk
    · interval_cases k
      · omega
      · show 31 ≤ daysBeforeMonth leap 2
        cases leap <;> decide
    · have h31 := ih (by omega)
      show 31 ≤ daysBeforeMonth leap k + monthLength leap k
      omega

/-- The only valid date with day-of-year 1 is January 1. -/
theorem dayOfYear_eq_one {d : Date} (hd : d.Valid) (h : dayOfYear d = 1) :
    d.month = 1 ∧ d.day = 1 := by
  obtain ⟨h1, h2, h3, h4, h5⟩ := hd
  unfold dayOfYear at h
  by_cases hm : d.month = 1
  · have hb : daysBeforeMonth (isLeap d.year) 1 = 0 := rfl
    rw [hm, hb] at h
    exact ⟨hm, by omega⟩
  · exfalso
    have := daysBeforeMonth_ge (isLeap d.year) d.month (by omega)
    omega

/-- `(today - date(today.year, 1, 1)).days` is the zero-based day of year. -/
theorem daysElapsed_today (today : Date) :
    daysElapsed today today.year = (dayOfYear today : ℤ) - 1 := by
  unfold daysElapsed rataDie
  have h : dayOfYear ⟨today.year, 1, 1⟩ = 1 := rfl
  rw [h]
  push_cast
  ring

/-- Except on January 1, the current year has nonzero elapsed days. -/
theorem daysElapsed_ne_zero {today : Date} (hv : today.Valid)
    (hjan : ¬(today.month = 1 ∧ today.day = 1)) :
    daysElapsed today today.year ≠ 0 := by
  rw [daysElapsed_today]
  intro h
  have h1 : dayOfYear today = 1 := by omega
  exact hjan (dayOfYear_eq_one hv h1)

/-- `year_stats` returns a report (raises nothing) whenever today is not
January 1: the current-year branch has nonzero elapsed days and the
other-year branch always has at least one active month. -/
theorem year_stats_isSome (today : Date) (ymd : List YMD) (year : ℕ)
    (hv : today.Valid) (hjan : ¬(today.month = 1 ∧ today.day = 1)) :
    (year_stats today ymd year).isSome := by
  unfold year_stats
  by_cases hbr : books_read_year ymd year ≠ []
  · rw [if_pos hbr]
    by_cases hyr : (year == today.year) = true
    · have hh : ¬((daysElapsed today year == 0) = true) := by
        have hy : year = today.year := by simpa using hyr
        rw [hy]
        simpa using daysElapsed_ne_zero hv hjan
      rw [if_pos hyr, if_neg hh]
      rfl
    · have hh : ¬((active_month_count ymd year == 0) = true) := by
        simp only [beq_iff_eq]
        unfold active_month_count
        intro h0
        have hd := List.length_eq_zero.mp h0
        rw [List.dedup_eq_nil, List.map_eq_nil_iff] at hd
        exact hbr hd
      rw [if_neg hyr, if_neg hh]
      rfl
  · rw [if_neg hbr]
    rfl

/-- `yearly_stats` returns a report whenever today is not January 1. -/
theorem yearly_stats_isSome (today : Date) (ymd : List YMD)
    (hv : today.Valid) (hjan : ¬(today.month = 1 ∧ today.day = 1)) :
    (yearly_stats today ymd).isSome := by
  unfold yearly_stats
  suffices h : ((active_years ymd).mapM fun y => year_stats today ymd y).isSome by
    obtain ⟨l, hl⟩ := Option.isSome_iff_exists.mp h
    rw [hl]
    rfl
  induction active_years ymd with
  | nil => rfl
  | cons a t ih =>
    rw [List.mapM_cons]
    obtain ⟨r, hr⟩ := Option.isSome_iff_exists.mp
      (year_stats_isSome today ymd a hv hjan)
    obtain ⟨l, hl⟩ := Option.isSome_iff_exists.mp ih
    rw [hr, hl]
    rfl

/-- `_get_max_year` returns a pair whenever today is not January 1. -/
theorem get_max_year_isSome (today : Date) (ymd : List YMD)
    (hv : today.Valid) (hjan : ¬(today.month = 1 ∧ today.day = 1)) :
    (get_max_year today ymd).isSome := by
  unfold get_max_year
  obtain ⟨ys, hys⟩ := Option.isSome_iff_exists.mp
    (yearly_stats_isSome today ymd hv hjan)
  rw [hys, Option.some_bind]
  by_cases hne : ys ≠ []
  · rw [if_pos hne]
    cases hs : List.insertionSort yrCountGE ys with
    | nil =>
      exfalso
      have hlen := List.length_insertionSort yrCountGE ys
      rw [hs] at hlen
      exact hne (List.length_eq_zero.mp hlen.symm)
    | cons r rest => rfl
  · rw [if_neg hne]
    rfl

/-- C3 (code bug): the claim says building the statistics engine and
running its report operations never raises; in fact `BookStats.__init__`
raises `AttributeError` for every input containing a COMPLETED book with
a nonempty completion date — the string-typed `date_completed` has no
`.year` — so the engine exists only for inputs with no such book, where
its working list is empty and every report operation returns the
degenerate empty-report value.  (The latent January-1 `ZeroDivisionError`
of `year_stats` is unreachable through the class: it needs a current-year
completion, which construction cannot survive.) -/
theorem c3_reports_raise_attribute_error :
    (∀ books : List Book,
      (mk_ymd books = Except.error PyErr.attributeError ↔
        ∃ b ∈ books, b.status = Status.COMPLETED ∧ b.date_completed ≠ "") ∧
      ((∀ b ∈ books, ¬(b.status = Status.COMPLETED ∧ b.date_completed ≠ "")) →
        mk_ymd books = Except.ok [])) ∧
    (mkBook none "T" "A" Status.COMPLETED "2024-01-01" "2024-01-05" =
      Except.ok ⟨none, "T", "A", Status.COMPLETED, "2024-01-01", "2024-01-05"⟩ ∧
     mk_ymd c3fail = Except.error PyErr.attributeError) ∧
    (monthly_stats [] = [] ∧
     (∀ today : Date, yearly_stats today [] = some []) ∧
     (∀ today : Date, get_max_year today [] = some (0, 0)) ∧
     get_max_year_month [] = (0, 0, 0) ∧
     (∀ (today : Date) (y : ℕ),
       year_stats today [] y = some ⟨y, none, none, none, none⟩) ∧
     (∀ y m : ℕ, month_stats [] y m = ⟨y, m, 0, 0, none⟩)) := by
  refine ⟨?_, by decide, ?_⟩
  · intro books
    constructor
    · rw [mk_ymd_eq books]
      by_cases hex : ∃ b ∈ books, b.status = Status.COMPLETED ∧
          b.date_completed ≠ ""
      · rw [if_pos hex]
        exact ⟨fun _ => hex, fun _ => rfl⟩
      · rw [if_neg hex]
        exact ⟨fun h0 => absurd h0 (by simp), fun h0 => absurd h0 hex⟩
    · intro h
      rw [mk_ymd_eq books, if_neg]
      rintro ⟨b, hb, hc⟩
      exact h b hb hc
  · refine ⟨rfl, fun today => rfl, fun today => rfl, rfl, ?_, ?_⟩
    · intro today y
      unfold year_stats
      rw [if_neg (fun hC => hC rfl)]
    · intro y m
      have h2 : month_avg ([] : List YMD) y m = none := rfl
      unfold month_stats books_read_month
      rw [h2]
      simp only [List.filter_nil, List.length_nil, MonthReport.mk.injEq,
        Nat.cast_zero]
      norm_num [round2, round_eq]

/-- Witness for C3: a mixed input with no completed-and-dated book
constructs the empty working list, a single completed book raises, and
the empty engine reports the degenerate year row. -/
theorem c3_witness :
    mk_ymd c3ok = Except.ok [] ∧
    mk_ymd c3fail = Except.error PyErr.attributeError ∧
    year_stats ⟨2026, 10, 12⟩ [] 2026 =
      some ⟨2026, none, none, none, none⟩ := by
  obtain ⟨hA, hB, h1, h2, h3, h4, h5, h6⟩ := c3_reports_raise_attribute_error
  refine ⟨(hA c3ok).2 (by decide), (hA c3fail).1.mpr ?_,
    h5 ⟨2026, 10, 12⟩ 2026⟩
  exact ⟨⟨none, "T", "A", Status.COMPLETED, "2024-01-01", "2024-01-05"⟩,
    by decide, rfl, by decide⟩

/-! ## Best year (claim C9) -/

/-- The head of the count-descending re-sort of a year-descending report is
a row of maximal count, and among rows tying that count it has the largest
year: `sorted(..., key=count, reverse=True)` is stable, so the earliest row
of the year-descending input wins ties. -/
theorem insertionSort_countGE_head (l : List YearReport) (hl : l ≠ [])
    (hsorted : List.Sorted yrGE l) :
    ∃ r rest, List.insertionSort yrCountGE l = r :: rest ∧ r ∈ l ∧
      (∀ s ∈ l, yrCount s ≤ yrCount r) ∧
      (∀ s ∈ l, yrCount s = yrCount r → s.year ≤ r.year) := by
  induction l with
  | nil => exact absurd rfl hl
  | cons a t ih =>
    by_cases ht : t = []
    · subst ht
      refine ⟨a, [], rfl, List.mem_singleton_self a, ?_, ?_⟩
      · intro s hs
        rw [List.mem_singleton.mp hs]
      · intro s hs _
        rw [List.mem_singleton.mp hs]
    · have hsorted' : List.Sorted yrGE t := hsorted.of_cons
      obtain ⟨r, rest, heq, hmem, hmax, htie⟩ := ih ht hsorted'
      have hrel : ∀ s ∈ t, s.year ≤ a.year := fun s hs =>
        List.rel_of_sorted_cons hsorted s hs
      by_cases har : yrCountGE a r
      · refine ⟨a, r :: rest, ?_, List.mem_cons_self a t, ?_, ?_⟩
        · simp only [List.insertionSort]
          rw [heq]
          show List.orderedInsert yrCountGE a (r :: rest) = a :: r :: rest
          simp [List.orderedInsert, if_pos har]
        · intro s hs
          rcases List.mem_cons.mp hs with rfl | hs'
          · exact le_refl _
          · exact le_trans (hmax s hs') har
        · intro s hs _
          rcases List.mem_cons.mp hs with rfl | hs'
          · exact le_refl _
          · exact hrel s hs'
      · have har' : ¬(yrCount r ≤ yrCount a) := har
        refine ⟨r, List.orderedInsert yrCountGE a rest, ?_,
          List.mem_cons_of_mem a hmem, ?_, ?_⟩
        · simp only [List.insertionSort]
          rw [heq]
          show List.orderedInsert yrCountGE a (r :: rest) =
            r :: List.orderedInsert yrCountGE a rest
          simp [List.orderedInsert, if_neg har]
        · intro s hs
          rcases List.mem_cons.mp hs with rfl | hs'
          · omega
          · exact hmax s hs'
        · intro s hs hcnt
          rcases List.mem_cons.mp hs with rfl | hs'
          · omega
          · exact htie s hs' hcnt

/-- A successful `Option`-valued `mapM` preserves the length. -/
theorem mapM_option_length {α β : Type} (f : α → Option β) :
    ∀ (l : List α) (r : List β), l.mapM f = some r → r.length = l.length := by
  intro l
  induction l with
  | nil =>
    intro r h
    rw [List.mapM_nil] at h
    simp only [Option.pure_def, Option.some.injEq] at h
    rw [← h]
    rfl
  | cons a t ih =>
    intro r h
    rw [List.mapM_cons] at h
    cases hfa : f a with
    | none => rw [hfa] at h; simp at h
    | some b =>
      rw [hfa] at h
      cases hmt : t.mapM f with
      | none => rw [hmt] at h; simp at h
      | some rt =>
        rw [hmt] at h
        simp at h
        subst h
        simp [List.length_cons, ih rt hmt]

/-- The `_get_max_year` pair on a nonempty working list: its count is
maximal across the yearly report and, among report rows attaining that
count, its year is the largest (the most recent year wins ties). -/
theorem get_max_year_spec (today : Date) (ymd : List YMD)
    (hvt : today.Valid) (hjan : ¬(today.month = 1 ∧ today.day = 1))
    (hne : ymd ≠ []) :
    ∃ ys r, yearly_stats today ymd = some ys ∧ r ∈ ys ∧
      get_max_year today ymd = some (r.year, yrCount r) ∧
      (∀ s ∈ ys, yrCount s ≤ yrCount r) ∧
      (∀ s ∈ ys, yrCount s = yrCount r → s.year ≤ r.year) := by
  obtain ⟨ys, hys⟩ := Option.isSome_iff_exists.mp
    (yearly_stats_isSome today ymd hvt hjan)
  have hys2 := hys
  unfold yearly_stats at hys2
  obtain ⟨rs, hrs, hsort⟩ := Option.map_eq_some'.mp hys2
  have hysne : ys ≠ [] := by
    intro h0
    have hyslen : ys.length = rs.length := by
      rw [← hsort]
      exact List.length_insertionSort _ _
    have hrslen : rs.length = (active_years ymd).length :=
      mapM_option_length _ _ _ hrs
    have hay : active_years ymd = [] := by
      apply List.length_eq_zero.mp
      rw [← hrslen, ← hyslen, h0]
      rfl
    unfold active_years at hay
    rw [List.dedup_eq_nil, List.map_eq_nil_iff] at hay
    exact hne hay
  have hsorted : List.Sorted yrGE ys := by
    rw [← hsort]
    exact List.sorted_insertionSort yrGE rs
  obtain ⟨r, rest, heq, hmem, hmax, htie⟩ :=
    insertionSort_countGE_head ys hysne hsorted
  refine ⟨ys, r, hys, hmem, ?_, hmax, htie⟩
  unfold get_max_year
  rw [hys, Option.some_bind, if_pos hysne, heq]

/-- C9 (code bug): the `(0, 0)` branch of `_get_max_year` is the only
reachable one — every input free of completed-and-dated books yields an
empty working list, whose yearly report is empty and whose best year is
`(0, 0)` — while any completed book with a completion date makes engine
construction raise `AttributeError` before `_get_max_year` can run.  The
maximal-count branch the claim describes is the method body over a
nonempty working list: the returned pair is a `(year, count)` row of the
yearly report with maximal count, ties going to the most recent year (the
report is year-descending and the count re-sort is stable), subject to
the body's own latent proviso that today is not January 1, where
`yearly_stats` would divide by zero. -/
theorem c9_best_year :
    (∀ (books : List Book) (today : Date),
      (∀ b ∈ books, ¬(b.status = Status.COMPLETED ∧ b.date_completed ≠ "")) →
      mk_ymd books = Except.ok [] ∧ get_max_year today [] = some (0, 0)) ∧
    mk_ymd c9fail = Except.error PyErr.attributeError ∧
    (∀ (today : Date) (ymd : List YMD), today.Valid →
      ¬(today.month = 1 ∧ today.day = 1) → ymd ≠ [] →
      ∃ ys r, yearly_stats today ymd = some ys ∧ r ∈ ys ∧
        get_max_year today ymd = some (r.year, yrCount r) ∧
        (∀ s ∈ ys, yrCount s ≤ yrCount r) ∧
        (∀ s ∈ ys, yrCount s = yrCount r → s.year ≤ r.year)) := by
  refine ⟨?_, by decide,
    fun today ymd hvt hjan hne => get_max_year_spec today ymd hvt hjan hne⟩
  intro books today h
  refine ⟨?_, rfl⟩
  rw [mk_ymd_eq books, if_neg]
  rintro ⟨b, hb, hc⟩
  exact h b hb hc

/-- Witness for C9: the empty branch at a trivial input and the
maximal-count branch at the example working list, whose best year is
`(2025, 2)`. -/
theorem c9_witness :
    (mk_ymd [⟨none, "T", "A", Status.TBR, "", ""⟩] = Except.ok [] ∧
      get_max_year ⟨2026, 10, 12⟩ [] = some (0, 0)) ∧
    get_max_year ⟨2026, 10, 12⟩ c9ymd = some (2025, 2) ∧
    (∃ ys r, yearly_stats ⟨2026, 10, 12⟩ c9ymd = some ys ∧ r ∈ ys ∧
      get_max_year ⟨2026, 10, 12⟩ c9ymd = some (r.year, yrCount r) ∧
      (∀ s ∈ ys, yrCount s ≤ yrCount r) ∧
      (∀ s ∈ ys, yrCount s = yrCount r → s.year ≤ r.year)) :=
  ⟨c9_best_year.1 [⟨none, "T", "A", Status.TBR, "", ""⟩] ⟨2026, 10, 12⟩
    (by decide),
   by decide,
   c9_best_year.2.2 ⟨2026, 10, 12⟩ c9ymd (by decide) (by decide) (by decide)⟩

/-! ## Gap filling in the monthly report (claim C1) -/

theorem pairLe_refl (a : ℕ × ℕ) : pairLe a a := by
  unfold pairLe; omega

theorem pairLe_trans {a b c : ℕ × ℕ} (h1 : pairLe a b) (h2 : pairLe b c) :
    pairLe a c := by
  unfold pairLe at *; omega

theorem pairLe_of_pairLt {a b : ℕ × ℕ} (h : pairLt a b) : pairLe a b := by
  unfold pairLt at h; unfold pairLe; omega

theorem pairLe_of_not_pairLt {a b : ℕ × ℕ} (h : ¬pairLt a b) : pairLe b a := by
  unfold pairLt at h; unfold pairLe; omega

/-- Python `min` over a nonempty pair list: a member below every element. -/
theorem minPair_spec (p : ℕ × ℕ) (ps : List (ℕ × ℕ)) :
    minPair (p :: ps) ∈ p :: ps ∧ ∀ q ∈ p :: ps, pairLe (minPair (p :: ps)) q := by
  induction ps generalizing p with
  | nil =>
    constructor
    · exact List.mem_singleton_self p
    · intro q hq
      rw [List.mem_singleton.mp hq]
      exact pairLe_refl _
  | cons q qs ih =>
    have hstep : minPair (p :: q :: qs) =
        minPair ((if pairLt q p then q else p) :: qs) := by
      show (q :: qs).foldl _ p = qs.foldl _ (if pairLt q p then q else p)
      rw [List.foldl_cons]
    obtain ⟨hmem, hle⟩ := ih (if pairLt q p then q else p)
    constructor
    · rw [hstep]
      rcases List.mem_cons.mp hmem with he | ht
      · rw [he]
        by_cases hqp : pairLt q p
        · rw [if_pos hqp]
          exact List.mem_cons_of_mem p (List.mem_cons_self q qs)
        · rw [if_neg hqp]
          exact List.mem_cons_self p _
      · exact List.mem_cons_of_mem p (List.mem_cons_of_mem q ht)
    · intro x hx
      rw [hstep]
      have hhead : pairLe (minPair ((if pairLt q p then q else p) :: qs))
          (if pairLt q p then q else p) := hle _ (List.mem_cons_self _ _)
      rcases List.mem_cons.mp hx with he | hx'
      · rw [he]
        by_cases hqp : pairLt q p
        · rw [if_pos hqp] at hhead ⊢
          exact pairLe_trans hhead (pairLe_of_pairLt hqp)
        · rw [if_neg hqp] at hhead ⊢
          exact hhead
      · rcases List.mem_cons.mp hx' with he | hx''
        · rw [he]
          by_cases hqp : pairLt q p
          · rw [if_pos hqp] at hhead ⊢
            exact hhead
          · rw [if_neg hqp] at hhead ⊢
            exact pairLe_trans hhead (pairLe_of_not_pairLt hqp)
        · exact hle x (List.mem_cons_of_mem _ hx'')

/-- Python `max` over a nonempty pair list: a member above every element. -/
theorem maxPair_spec (p : ℕ × ℕ) (ps : List (ℕ × ℕ)) :
    maxPair (p :: ps) ∈ p :: ps ∧ ∀ q ∈ p :: ps, pairLe q (maxPair (p :: ps)) := by
  induction ps generalizing p with
  | nil =>
    constructor
    · exact List.mem_singleton_self p
    · intro q hq
      rw [List.mem_singleton.mp hq]
      exact pairLe_refl _
  | cons q qs ih =>
    have hstep : maxPair (p :: q :: qs) =
        maxPair ((if pairLt p q then q else p) :: qs) := by
      show (q :: qs).foldl _ p = qs.foldl _ (if pairLt p q then q else p)
      rw [List.foldl_cons]
    obtain ⟨hmem, hle⟩ := ih (if pairLt p q then q else p)
    constructor
    · rw [hstep]
      rcases List.mem_cons.mp hmem with he | ht
      · rw [he]
        by_cases hpq : pairLt p q
        · rw [if_pos hpq]
          exact List.mem_cons_of_mem p (List.mem_cons_self q qs)
        · rw [if_neg hpq]
          exact List.mem_cons_self p _
      · exact List.mem_cons_of_mem p (List.mem_cons_of_mem q ht)
    · intro x hx
      rw [hstep]
      have hhead : pairLe (if pairLt p q then q else p)
          (maxPair ((if pairLt p q then q else p) :: qs)) :=
        hle _ (List.mem_cons_self _ _)
      rcases List.mem_cons.mp hx with he | hx'
      · rw [he]
        by_cases hpq : pairLt p q
        · rw [if_pos hpq] at hhead ⊢
          exact pairLe_trans (pairLe_of_pairLt hpq) hhead
        · rw [if_neg hpq] at hhead ⊢
          exact hhead
      · rcases List.mem_cons.mp hx' with he | hx''
        · rw [he]
          by_cases hpq : pairLt p q
          · rw [if_pos hpq] at hhead ⊢
            exact hhead
          · rw [if_neg hpq] at hhead ⊢
            exact pairLe_trans (pairLe_of_not_pairLt hpq) hhead
        · exact hle x (List.mem_cons_of_mem _ hx'')

/-- Filtering a duplicate-free list for one value keeps at most that value. -/
theorem filter_eq_of_nodup {α : Type} [DecidableEq α] :
    ∀ (l : List α), l.Nodup → ∀ a : α,
      l.filter (fun x => decide (x = a)) = if a ∈ l then [a] else [] := by
  intro l hnd a
  induction l with
  | nil => simp
  | cons b t ih =>
    rw [List.filter_cons]
    by_cases hb : b = a
    · subst hb
      have hnotin : b ∉ t := (List.nodup_cons.mp hnd).1
      have ht : t.filter (fun x => decide (x = b)) = [] := by
        rw [List.filter_eq_nil_iff]
        intro x hx
        simp only [decide_eq_true_eq]
        intro hxa
        exact hnotin (hxa ▸ hx)
      simp [ht]
    · have := ih (List.nodup_cons.mp hnd).2
      simp only [decide_eq_true_eq]
      rw [if_neg hb, this]
      by_cases hmem : a ∈ t
      · rw [if_pos hmem, if_pos (List.mem_cons_of_mem b hmem)]
      · rw [if_neg hmem, if_neg]
        intro hc
        rcases List.mem_cons.mp hc with he | ht'
        · exact hb he.symm
        · exact hmem ht'

/-- Membership in `range(1, 13)`. -/
theorem mem_months_iff {m : ℕ} : m ∈ List.range' 1 12 ↔ 1 ≤ m ∧ m ≤ 12 := by
  rw [List.mem_range']
  constructor
  · rintro ⟨i, hi, rfl⟩
    omega
  · intro h
    exact ⟨m - 1, by omega, by omega⟩

/-- A pair is active exactly when some working triple carries it. -/
theorem mem_active_pairs {ymd : List YMD} {y m : ℕ} :
    (y, m) ∈ active_pairs ymd ↔ ∃ t ∈ ymd, t.year = y ∧ t.month = m := by
  unfold active_pairs
  rw [List.mem_dedup, List.mem_map]
  constructor
  · rintro ⟨t, ht, he⟩
    exact ⟨t, ht, congrArg Prod.fst he, congrArg Prod.snd he⟩
  · rintro ⟨t, ht, h1, h2⟩
    exact ⟨t, ht, by rw [h1, h2]⟩

/-- Spelling out the `missing` comprehension of `monthly_stats`. -/
theorem mem_missing_pairs {ymd : List YMD} {y m : ℕ} :
    (y, m) ∈ missing_pairs ymd ↔
      y ∈ active_years ymd ∧ (1 ≤ m ∧ m ≤ 12) ∧
      pairLt (minPair (active_pairs ymd)) (y, m) ∧
      pairLt ((y, m)) (maxPair (active_pairs ymd)) ∧
      (y, m) ∉ active_pairs ymd := by
  unfold missing_pairs
  rw [List.mem_filter, List.mem_product, mem_months_iff]
  simp only [Bool.and_eq_true, decide_eq_true_eq, Bool.not_eq_true',
    ← Bool.not_eq_true, List.elem_iff]
  constructor
  · rintro ⟨⟨h1, h2⟩, ⟨h3, h4⟩, h5⟩
    exact ⟨h1, h2, h3, h4, h5⟩
  · rintro ⟨h1, h2, h3, h4, h5⟩
    exact ⟨⟨h1, h2⟩, ⟨h3, h4⟩, h5⟩

/-- The monthly report keeps exactly one row per `(year, month)` key: the
real `month_stats` row for an active pair, the synthetic zero row for a
missing pair, nothing otherwise. -/
theorem monthly_stats_filter (ymd : List YMD) (y m : ℕ) :
    (monthly_stats ymd).filter (fun r => r.year == y && r.month == m) =
      if (y, m) ∈ active_pairs ymd then [month_stats ymd y m]
      else if (y, m) ∈ missing_pairs ymd then [gap_row (y, m)] else [] := by
  have hperm : ((monthly_stats ymd).filter
      (fun r => r.year == y && r.month == m)).Perm
      (((active_pairs ymd).map fun p => month_stats ymd p.1 p.2).filter
          (fun r => r.year == y && r.month == m) ++
        ((missing_pairs ymd).map gap_row).filter
          (fun r => r.year == y && r.month == m)) := by
    rw [← List.filter_append]
    exact (List.perm_insertionSort mrGE _).filter _
  have hA : ((active_pairs ymd).map fun p => month_stats ymd p.1 p.2).filter
      (fun r => r.year == y && r.month == m) =
      if (y, m) ∈ active_pairs ymd then [month_stats ymd y m] else [] := by
    rw [List.filter_map]
    have hcong : (active_pairs ymd).filter
        ((fun r => r.year == y && r.month == m) ∘
          fun p => month_stats ymd p.1 p.2) =
        (active_pairs ymd).filter (fun q => decide (q = (y, m))) := by
      apply List.filter_congr
      intro q _
      show ((month_stats ymd q.1 q.2).year == y &&
        (month_stats ymd q.1 q.2).month == m) = _
      have h1 : (month_stats ymd q.1 q.2).year = q.1 := rfl
      have h2 : (month_stats ymd q.1 q.2).month = q.2 := rfl
      rw [h1, h2]
      cases q with
      | mk qa qb =>
        by_cases ha : qa = y
        · by_cases hb : qb = m
          · simp [ha, hb]
          · simp [ha, hb, Prod.ext_iff]
        · simp [ha, Prod.ext_iff]
    have hAnodup : (active_pairs ymd).Nodup := List.nodup_dedup _
    rw [hcong, filter_eq_of_nodup _ hAnodup (y, m)]
    by_cases hmem : (y, m) ∈ active_pairs ymd
    · rw [if_pos hmem, if_pos hmem]
      rfl
    · rw [if_neg hmem, if_neg hmem]
      rfl
  have hBnodup : (missing_pairs ymd).Nodup := by
    unfold missing_pairs
    exact ((List.nodup_dedup _).product (List.nodup_range' 1 12)).filter _
  have hB : ((missing_pairs ymd).map gap_row).filter
      (fun r => r.year == y && r.month == m) =
      if (y, m) ∈ missing_pairs ymd then [gap_row (y, m)] else [] := by
    rw [List.filter_map]
    have hcong : (missing_pairs ymd).filter
        ((fun r => r.year == y && r.month == m) ∘ gap_row) =
        (missing_pairs ymd).filter (fun q => decide (q = (y, m))) := by
      apply List.filter_congr
      intro q _
      show ((gap_row q).year == y && (gap_row q).month == m) = _
      have h1 : (gap_row q).year = q.1 := rfl
      have h2 : (gap_row q).month = q.2 := rfl
      rw [h1, h2]
      cases q with
      | mk qa qb =>
        by_cases ha : qa = y
        · by_cases hb : qb = m
          · simp [ha, hb]
          · simp [ha, hb, Prod.ext_iff]
        · simp [ha, Prod.ext_iff]
    rw [hcong, filter_eq_of_nodup _ hBnodup (y, m)]
    by_cases hmem : (y, m) ∈ missing_pairs ymd
    · rw [if_pos hmem, if_pos hmem]
      rfl
    · rw [if_neg hmem, if_neg hmem]
      rfl
  rw [hA, hB] at hperm
  have hdisj : (y, m) ∈ missing_pairs ymd → (y, m) ∉ active_pairs ymd :=
    fun h => (mem_missing_pairs.mp h).2.2.2.2
  by_cases hact : (y, m) ∈ active_pairs ymd
  · rw [if_pos hact]
    rw [if_pos hact, if_neg (fun h => hdisj h hact)] at hperm
    exact List.perm_singleton.mp (by simpa using hperm)
  · rw [if_neg hact]
    rw [if_neg hact] at hperm
    by_cases hmiss : (y, m) ∈ missing_pairs ymd
    · rw [if_pos hmiss] at hperm ⊢
      exact List.perm_singleton.mp (by simpa using hperm)
    · rw [if_neg hmiss] at hperm ⊢
      exact List.perm_nil.mp (by simpa using hperm)

/-- C1 (amended): the monthly report of an input with any completed book
never materializes — engine construction raises `AttributeError` — and
every input that does construct yields the empty report.  The
`monthly_stats` method body over a working list behaves as the amendment
describes: the report is sorted descending by `(year, month)` and
carries, for each key, exactly the real `month_stats` row when the pair
has a completion, exactly the synthetic zero row when the pair lies
strictly between the earliest and latest active pairs, falls in a year
with at least one completion, and has none itself — and no row at all
otherwise; months of an entirely inactive year between two active years
are NOT back-filled. -/
theorem c1_monthly_report_gap_fill :
    (∀ books : List Book,
      ((∃ b ∈ books, b.status = Status.COMPLETED ∧ b.date_completed ≠ "") →
        mk_ymd books = Except.error PyErr.attributeError) ∧
      ((∀ b ∈ books, ¬(b.status = Status.COMPLETED ∧ b.date_completed ≠ "")) →
        mk_ymd books = Except.ok [] ∧ monthly_stats [] = [])) ∧
    (∀ ymd : List YMD,
      List.Sorted mrGE (monthly_stats ymd) ∧
      (ymd ≠ [] →
        minPair (active_pairs ymd) ∈ active_pairs ymd ∧
        maxPair (active_pairs ymd) ∈ active_pairs ymd ∧
        (∀ p ∈ active_pairs ymd,
          pairLe (minPair (active_pairs ymd)) p ∧
          pairLe p (maxPair (active_pairs ymd)))) ∧
      (∀ y m : ℕ, ((y, m) ∈ active_pairs ymd ↔
        ∃ t ∈ ymd, t.year = y ∧ t.month = m)) ∧
      (∀ y m : ℕ, ((y, m) ∈ missing_pairs ymd ↔
        y ∈ active_years ymd ∧ (1 ≤ m ∧ m ≤ 12) ∧
        pairLt (minPair (active_pairs ymd)) (y, m) ∧
        pairLt ((y, m)) (maxPair (active_pairs ymd)) ∧
        (y, m) ∉ active_pairs ymd)) ∧
      (∀ y m : ℕ, (monthly_stats ymd).filter
          (fun r => r.year == y && r.month == m) =
        if (y, m) ∈ active_pairs ymd then [month_stats ymd y m]
        else if (y, m) ∈ missing_pairs ymd then [gap_row (y, m)]
        else [])) := by
  constructor
  · intro books
    constructor
    · intro hex
      rw [mk_ymd_eq books, if_pos hex]
    · intro h
      refine ⟨?_, rfl⟩
      rw [mk_ymd_eq books, if_neg]
      rintro ⟨b, hb, hc⟩
      exact h b hb hc
  · intro ymd
    refine ⟨List.sorted_insertionSort mrGE _, ?_,
      fun y m => mem_active_pairs, fun y m => mem_missing_pairs,
      fun y m => monthly_stats_filter ymd y m⟩
    intro hne
    have hne2 : active_pairs ymd ≠ [] := by
      unfold active_pairs
      rw [Ne, List.dedup_eq_nil, List.map_eq_nil_iff]
      exact hne
    cases hap : active_pairs ymd with
    | nil => exact absurd hap hne2
    | cons p ps =>
      obtain ⟨hminmem, hminle⟩ := minPair_spec p ps
      obtain ⟨hmaxmem, hmaxle⟩ := maxPair_spec p ps
      exact ⟨hminmem, hmaxmem, fun q hq => ⟨hminle q hq, hmaxle q hq⟩⟩

/-- Witness for C1: a TBR-only input constructs the empty report, and on
the example working list active months get a real row, the inner gap gets
a zero row, and foreign keys get no row. -/
theorem c1_witness :
    (mk_ymd [⟨none, "T", "A", Status.TBR, "", ""⟩] = Except.ok [] ∧
      monthly_stats [] = []) ∧
    (monthly_stats c1ymd).filter (fun r => r.year == 2024 && r.month == 2) =
      [gap_row (2024, 2)] ∧
    (monthly_stats c1ymd).filter (fun r => r.year == 2024 && r.month == 1) =
      [month_stats c1ymd 2024 1] ∧
    (monthly_stats c1ymd).filter (fun r => r.year == 2023 && r.month == 5) =
      [] := by
  obtain ⟨hbooks, hymd⟩ := c1_monthly_report_gap_fill
  obtain ⟨-, -, -, -, hfil⟩ := hymd c1ymd
  refine ⟨(hbooks [⟨none, "T", "A", Status.TBR, "", ""⟩]).2 (by decide),
    ?_, ?_, ?_⟩
  · exact (hfil 2024 2).trans (by rw [if_neg (by decide), if_pos (by decide)])
  · exact (hfil 2024 1).trans (by rw [if_pos (by decide)])
  · exact (hfil 2023 5).trans (by rw [if_neg (by decide), if_neg (by decide)])

/-- Counterexample to C1 as stated: the validly constructed books
completed in 2020-05 and 2022-05 crash engine construction outright; and
even the method body over the corresponding working list gives the pair
`(2021, 3)` — strictly between the earliest and latest active pairs, with
zero completions — no row at all: gap filling skips years without
completions. -/
theorem c1_counterexample :
    (mkBook none "B1" "A" Status.COMPLETED "2020-05-01" "2020-05-01" =
      Except.ok ⟨none, "B1", "A", Status.COMPLETED, "2020-05-01", "2020-05-01"⟩ ∧
     mkBook none "B2" "A" Status.COMPLETED "2022-05-01" "2022-05-01" =
      Except.ok ⟨none, "B2", "A", Status.COMPLETED, "2022-05-01", "2022-05-01"⟩ ∧
     mk_ymd c1crash = Except.error PyErr.attributeError) ∧
    (minPair (active_pairs c1gap) = (2020, 5) ∧
     maxPair (active_pairs c1gap) = (2022, 5) ∧
     pairLt (2020, 5) (2021, 3) ∧ pairLt ((2021, 3)) ((2022, 5)) ∧
     c1gap.countP (fun t => t.year == 2021 && t.month == 3) = 0 ∧
     ∀ r ∈ monthly_stats c1gap, ¬(r.year = 2021 ∧ r.month = 3)) := by
  refine ⟨by decide, ?_⟩
  refine ⟨by decide, by decide, by decide, by decide, by decide, ?_⟩
  decide
